import Mathlib

/-!
Shallow embedding of `src/notebooks/utils.py` from the ambition-gaps
repository, together with theorems settling the spec claims about it.

Numbers flowing through the pure math helpers (`linear_equation`,
`scaled_emissions`, `ipcc_range`) are modelled as rationals; years in the
table-shaped data are integers.  Python's `/`, which raises
`ZeroDivisionError` on a zero divisor, is modelled by an explicit
zero-divisor check returning `none`; tables are lists of records with the
columns the code touches; external-client calls are modelled by an input
describing the client's response (a value or one of the error kinds the
code distinguishes).
-/

namespace AmbitionGaps

/-- The dictionary returned by `linear_equation` (without the closure,
whose behaviour is exposed through `LinearEquationResult.equation`). -/
structure LinearEquationResult where
  slope : ℚ
  intercept : ℚ
  target_emissions : ℚ
deriving Repr, DecidableEq

/-- The closure `equation = lambda YEAR: (slope * YEAR) + intercept`
stored in the dictionary returned by `linear_equation`. -/
def LinearEquationResult.equation (r : LinearEquationResult) (YEAR : ℚ) : ℚ :=
  r.slope * YEAR + r.intercept

/-- Embedding of `linear_equation` (utils.py lines 165-173).  Python's
division raises `ZeroDivisionError` when `d_year` is zero, modelled here
as `none`. -/
def linear_equation (baseline_year baseline_emissions target_percent target_year : ℚ) :
    Option LinearEquationResult :=
  let target_decimal := target_percent / 100
  let target_emissions := baseline_emissions * (1 - target_decimal)
  let d_emission := target_emissions - baseline_emissions
  let d_year := target_year - baseline_year
  if d_year = 0 then
    none
  else
    let slope := d_emission / d_year
    let intercept := baseline_emissions - slope * baseline_year
    some { slope := slope, intercept := intercept, target_emissions := target_emissions }

/-- Embedding of `scaled_emissions` (utils.py lines 175-185): call
`linear_equation` and evaluate its `equation` closure at `scale_year`. -/
def scaled_emissions
    (baseline_year baseline_emissions target_percent target_year scale_year : ℚ) :
    Option ℚ :=
  (linear_equation baseline_year baseline_emissions target_percent target_year).map
    (fun le => le.equation scale_year)

/-- One row of an emissions table, with the columns the code touches. -/
structure EmissionsRow where
  actor_id : String
  year : Int
  total_emissions : ℚ
deriving Repr, DecidableEq

/-- The dictionary returned by `ipcc_range`. -/
structure IpccRangeResult where
  baseline_year : Int
  target_value15 : ℚ
  target_emissions15 : ℚ
  target_value20 : ℚ
  target_emissions20 : ℚ
deriving Repr, DecidableEq

/-- pandas `.item()`: the single scalar of a one-element series; raises
(`none`) when the series has zero or several elements. -/
def seriesItem (l : List ℚ) : Option ℚ :=
  match l with
  | [a] => some a
  | _ => none

/-- The rows `ipcc_range` selects before calling `.item()`: filter by
`actor_id` when one is given, then by `year == baseline_year`
(utils.py lines 141-153). -/
def ipcc_baseline_rows (df : List EmissionsRow) (actor_id : Option String)
    (baseline_year : Int) : List EmissionsRow :=
  match actor_id with
  | none => df.filter (fun r => r.year == baseline_year)
  | some a => (df.filter (fun r => r.actor_id == a)).filter (fun r => r.year == baseline_year)

/-- Embedding of `ipcc_range` (utils.py lines 102-163).  `.item()` on a
series without exactly one element raises, modelled as `none`. -/
def ipcc_range (df : List EmissionsRow) (actor_id : Option String)
    (baseline_year : Int) (target_value15 target_value20 : ℚ) :
    Option IpccRangeResult :=
  match seriesItem ((ipcc_baseline_rows df actor_id baseline_year).map
      (fun r => r.total_emissions)) with
  | none => none
  | some baseline_emissions =>
      some { baseline_year := baseline_year,
             target_value15 := target_value15,
             target_emissions15 := baseline_emissions * (1 - target_value15 / 100),
             target_value20 := target_value20,
             target_emissions20 := baseline_emissions * (1 - target_value20 / 100) }

/-- A full target record as returned by the client's `targets` call. -/
structure TargetRecord where
  actor_id : String
  target_type : String
  baseline_year : Int
  target_year : Int
  target_value : ℚ
  target_unit : String
  datasource_id : String
deriving Repr, DecidableEq

/-- One row of the table `get_target` returns (the `cols_out`
projection). -/
structure TargetOut where
  actor_id : String
  baseline_year : Int
  target_year : Int
  target_value : ℚ
  target_unit : String
deriving Repr, DecidableEq

/-- Projection of a target record to `cols_out`. -/
def TargetRecord.project (r : TargetRecord) : TargetOut :=
  { actor_id := r.actor_id, baseline_year := r.baseline_year,
    target_year := r.target_year, target_value := r.target_value,
    target_unit := r.target_unit }

/-- pandas `.min()` over an integer series: `none` (NaN) on the empty
series, the least element otherwise. -/
def seriesMin (l : List Int) : Option Int :=
  match l with
  | [] => none
  | a :: rest => some (rest.foldl min a)

/-- Recursion for `dropDuplicates`: keep a row unless an equal row was
already kept. -/
def dropDupsAux {α : Type} [DecidableEq α] : List α → List α → List α
  | _, [] => []
  | seen, a :: rest =>
      if a ∈ seen then dropDupsAux seen rest else a :: dropDupsAux (a :: seen) rest

/-- pandas `drop_duplicates`: remove exact-duplicate rows, keeping the
first occurrence of each. -/
def dropDuplicates {α : Type} [DecidableEq α] (l : List α) : List α :=
  dropDupsAux [] l

/-- A response from an external-client call, as observed by code that
wraps the call in a bare `try`/`except`: either a value or some raised
exception. -/
inductive ClientResult (α : Type) where
  | ok (value : α)
  | raised (msg : String)
deriving Repr, DecidableEq

/-- The table pipeline inside `get_target`'s `try` block (utils.py lines
59-74): filter to absolute-emission-reduction records, take the minimum
target_year among records whose target_year equals the requested year
(`none`, i.e. NaN, when there are none — and comparing against NaN
matches no row), filter to that year, project, drop duplicates. -/
def get_target_pipeline (targets : List TargetRecord) (year : Int) : List TargetOut :=
  let part_targets := targets.filter (fun r => r.target_type == "Absolute emission reduction")
  let closest_target :=
    seriesMin ((part_targets.filter (fun r => r.target_year == year)).map
      (fun r => r.target_year))
  match closest_target with
  | none => []
  | some ct =>
      dropDuplicates ((part_targets.filter (fun r => r.target_year == ct)).map
        TargetRecord.project)

/-- Embedding of `get_target` (utils.py lines 42-76): the client response
feeds the pipeline; any raised exception is swallowed and `None`
returned. -/
def get_target (resp : ClientResult (List TargetRecord)) (year : Int) :
    Option (List TargetOut) :=
  match resp with
  | .ok targets => some (get_target_pipeline targets year)
  | .raised _ => none

/-- A response from the client's `emissions` call, distinguishing the
`ValueError` the code catches from any other exception. -/
inductive EmissionsResponse where
  | ok (table : List EmissionsRow)
  | valueError (msg : String)
  | otherError (msg : String)
deriving Repr, DecidableEq

/-- Embedding of `get_emissions` (utils.py lines 79-100): a `ValueError`
is caught and mapped to `None`; any other exception propagates
(`Except.error`); a successful table is returned unchanged. -/
def get_emissions (resp : EmissionsResponse) : Except String (Option (List EmissionsRow)) :=
  match resp with
  | .ok table => .ok (some table)
  | .valueError _ => .ok none
  | .otherError msg => .error msg

/-- A row with the `name` and `actor_id` columns `actor_parts`
selects. -/
structure NamedActor where
  name : String
  actor_id : String
deriving Repr, DecidableEq

/-- A response from a client lookup inside `actor_parts`, distinguishing
the `AttributeError` and `KeyError` the code catches from a value. -/
inductive LookupResponse (α : Type) where
  | ok (value : α)
  | attributeError (msg : String)
  | keyError (msg : String)
deriving Repr, DecidableEq

/-- Embedding of `actor_parts` (utils.py lines 5-39).  The `parts` call
is evaluated first, then the `search` call; an `AttributeError` or
`KeyError` from either is caught (a message is printed) and `None`
returned.  On success the search result is filtered to the exact
`actor_id` match and concatenated before the child rows. -/
def actor_parts (partsResp : LookupResponse (List NamedActor))
    (searchResp : LookupResponse (List NamedActor)) (actor_id : String) :
    Option (List NamedActor) :=
  match partsResp with
  | .attributeError _ => none
  | .keyError _ => none
  | .ok df_parts =>
      match searchResp with
      | .attributeError _ => none
      | .keyError _ => none
      | .ok searchRows =>
          let df_actor := searchRows.filter (fun r => r.actor_id == actor_id)
          some (df_actor ++ df_parts)

/-- Helper: the closed form `linear_equation` takes whenever
target_year differs from baseline_year. -/
theorem linear_equation_of_ne (b e p t : ℚ) (ht : t ≠ b) :
    linear_equation b e p t =
      some { slope := (e * (1 - p / 100) - e) / (t - b),
             intercept := e - ((e * (1 - p / 100) - e) / (t - b)) * b,
             target_emissions := e * (1 - p / 100) } := by
  have hd : t - b ≠ 0 := sub_ne_zero.mpr ht
  simp only [linear_equation, if_neg hd]

/-- Helper: the concrete example `linear_equation(2020, 100, 50, 2030)`
evaluates to slope -5, intercept 10200, target emissions 50. -/
theorem linear_equation_example :
    linear_equation 2020 100 50 2030 =
      some { slope := -5, intercept := 10200, target_emissions := 50 } := by
  rw [linear_equation_of_ne 2020 100 50 2030 (by norm_num)]
  norm_num

/-- C1: for target_year ≠ baseline_year, `linear_equation` returns
target_emissions = e·(1 − p/100), slope = (target_emissions − e)/(t − b)
and intercept = e − slope·b; at (2020, 100, 50, 2030) the slope is -5,
the target emissions are 50, the intercept is 10200 (not 10100 as the
spec example says), and the equation evaluated at 2025 gives 75. -/
theorem C1_linear_equation :
    (∀ b e p t : ℚ, t ≠ b →
      linear_equation b e p t =
        some { slope := (e * (1 - p / 100) - e) / (t - b),
               intercept := e - ((e * (1 - p / 100) - e) / (t - b)) * b,
               target_emissions := e * (1 - p / 100) }) ∧
    linear_equation 2020 100 50 2030 =
      some { slope := -5, intercept := 10200, target_emissions := 50 } ∧
    (linear_equation 2020 100 50 2030).map (fun le => le.equation 2025) = some 75 := by
  refine ⟨linear_equation_of_ne, linear_equation_example, ?_⟩
  rw [linear_equation_example]
  simp only [Option.map_some']
  norm_num [LinearEquationResult.equation]

/-- Witness for C1: the general statement instantiated at the spec's
concrete example. -/
theorem C1_linear_equation_witness :
    linear_equation 2020 100 50 2030 =
      some { slope := (100 * (1 - 50 / 100) - 100) / (2030 - 2020),
             intercept := 100 - ((100 * (1 - 50 / 100) - 100) / (2030 - 2020)) * 2020,
             target_emissions := 100 * (1 - 50 / 100) } :=
  C1_linear_equation.1 2020 100 50 2030 (by norm_num)

/-- Counterexample for C1 as stated: the intercept of
`linear_equation(2020, 100, 50, 2030)` is 10200, not 10100. -/
theorem C1_counterexample :
    (linear_equation 2020 100 50 2030).map LinearEquationResult.intercept ≠ some 10100 := by
  rw [linear_equation_example]
  simp only [Option.map_some']
  norm_num

/-- C2: with target_year equal to baseline_year, `linear_equation`
signals an error (Python raises `ZeroDivisionError`; modelled as `none`)
for every baseline_year, baseline_emissions and target_percent. -/
theorem C2_linear_equation_same_year (b e p : ℚ) :
    linear_equation b e p b = none := by
  simp [linear_equation]

/-- C3: evaluating the fitted line at the baseline year returns the
baseline emissions, for all inputs with target_year ≠ baseline_year;
in particular `scaled_emissions(2020, 100, 50, 2030, 2020) = 100`. -/
theorem C3_scaled_emissions_at_baseline (b e p t : ℚ) (ht : t ≠ b) :
    scaled_emissions b e p t b = some e := by
  rw [scaled_emissions, linear_equation_of_ne b e p t ht]
  simp only [Option.map_some', LinearEquationResult.equation, Option.some.injEq]
  ring

/-- Witness for C3 at the spec's concrete example:
`scaled_emissions(2020, 100, 50, 2030, 2020) = 100`. -/
theorem C3_scaled_emissions_at_baseline_witness :
    scaled_emissions 2020 100 50 2030 2020 = some 100 :=
  C3_scaled_emissions_at_baseline 2020 100 50 2030 (by norm_num)

/-- C4: evaluating the fitted line at the target year returns exactly
the target emissions e·(1 − p/100), for all inputs with
target_year ≠ baseline_year; in particular
`scaled_emissions(2020, 100, 50, 2030, 2030) = 50`. -/
theorem C4_scaled_emissions_at_target (b e p t : ℚ) (ht : t ≠ b) :
    scaled_emissions b e p t t = some (e * (1 - p / 100)) := by
  have hd : t - b ≠ 0 := sub_ne_zero.mpr ht
  rw [scaled_emissions, linear_equation_of_ne b e p t ht]
  simp only [Option.map_some', LinearEquationResult.equation, Option.some.injEq]
  field_simp
  ring

/-- Witness for C4 at the spec's concrete example:
`scaled_emissions(2020, 100, 50, 2030, 2030) = 50`. -/
theorem C4_scaled_emissions_at_target_witness :
    scaled_emissions 2020 100 50 2030 2030 = some 50 := by
  have h := C4_scaled_emissions_at_target 2020 100 50 2030 (by norm_num)
  rw [h]
  norm_num

/-- Helper: rows surviving `dropDupsAux` come from the input list. -/
theorem mem_of_mem_dropDupsAux {α : Type} [DecidableEq α] {x : α} :
    ∀ (seen l : List α), x ∈ dropDupsAux seen l → x ∈ l := by
  intro seen l
  induction l generalizing seen with
  | nil => simp [dropDupsAux]
  | cons a rest ih =>
    simp only [dropDupsAux]
    split
    · intro h
      exact List.mem_cons_of_mem a (ih _ h)
    · intro h
      rcases List.mem_cons.mp h with h | h
      · subst h
        exact List.mem_cons_self x rest
      · exact List.mem_cons_of_mem a (ih _ h)

/-- Helper: rows surviving `dropDupsAux` were not already seen. -/
theorem not_mem_seen_of_mem_dropDupsAux {α : Type} [DecidableEq α] {x : α} :
    ∀ (seen l : List α), x ∈ dropDupsAux seen l → x ∉ seen := by
  intro seen l
  induction l generalizing seen with
  | nil => simp [dropDupsAux]
  | cons a rest ih =>
    simp only [dropDupsAux]
    split
    · exact fun h => ih _ h
    · rename_i hna
      intro h hx
      rcases List.mem_cons.mp h with h | h
      · subst h
        exact hna hx
      · exact ih (a :: seen) h (List.mem_cons_of_mem a hx)

/-- Helper: `dropDupsAux` produces a duplicate-free list. -/
theorem dropDupsAux_nodup {α : Type} [DecidableEq α] :
    ∀ (seen l : List α), (dropDupsAux seen l).Nodup := by
  intro seen l
  induction l generalizing seen with
  | nil => simp [dropDupsAux]
  | cons a rest ih =>
    simp only [dropDupsAux]
    split
    · exact ih _
    · refine List.nodup_cons.mpr ⟨?_, ih _⟩
      intro hmem
      exact not_mem_seen_of_mem_dropDupsAux _ _ hmem (List.mem_cons_self a seen)

/-- Helper: `dropDuplicates` produces a duplicate-free list. -/
theorem dropDuplicates_nodup {α : Type} [DecidableEq α] (l : List α) :
    (dropDuplicates l).Nodup :=
  dropDupsAux_nodup [] l

/-- Helper: every row of `dropDuplicates l` is a row of `l`. -/
theorem mem_of_mem_dropDuplicates {α : Type} [DecidableEq α] {x : α} {l : List α}
    (h : x ∈ dropDuplicates l) : x ∈ l :=
  mem_of_mem_dropDupsAux [] l h

/-- Helper: folding `min` over a list of copies of `y`, starting from
`y`, gives `y`. -/
theorem foldl_min_all_eq {y : Int} :
    ∀ (l : List Int), (∀ x ∈ l, x = y) → ∀ a, a = y → l.foldl min a = y := by
  intro l
  induction l with
  | nil =>
    intro _ a ha
    simpa using ha
  | cons b rest ih =>
    intro hall a ha
    have hb : b = y := hall b (List.mem_cons_self b rest)
    simp only [List.foldl_cons]
    refine ih (fun x hx => hall x (List.mem_cons_of_mem b hx)) (min a b) ?_
    rw [ha, hb]
    exact min_self y

/-- Helper: the minimum of a nonempty series of copies of `y` is `y`. -/
theorem seriesMin_eq_of_all_eq {y c : Int} {l : List Int}
    (hall : ∀ x ∈ l, x = y) (hc : seriesMin l = some c) : c = y := by
  cases l with
  | nil => simp [seriesMin] at hc
  | cons a rest =>
    simp only [seriesMin, Option.some.injEq] at hc
    rw [← hc]
    exact foldl_min_all_eq rest
      (fun x hx => hall x (List.mem_cons_of_mem a hx)) a
      (hall a (List.mem_cons_self a rest))

/-- C5: when the baseline filter matches exactly one row, `ipcc_range`
returns target emissions B·(1 − tv15/100) and B·(1 − tv20/100) for the
row's total_emissions B, alongside the inputs; in particular a one-row
table {year 2019, total_emissions 200} with 43/27 gives 114 and 146. -/
theorem C5_ipcc_range :
    (∀ (df : List EmissionsRow) (actor : Option String) (yb : Int) (tv15 tv20 : ℚ)
        (r : EmissionsRow),
      ipcc_baseline_rows df actor yb = [r] →
      ipcc_range df actor yb tv15 tv20 =
        some { baseline_year := yb, target_value15 := tv15,
               target_emissions15 := r.total_emissions * (1 - tv15 / 100),
               target_value20 := tv20,
               target_emissions20 := r.total_emissions * (1 - tv20 / 100) }) ∧
    ipcc_range [{ actor_id := "XX", year := 2019, total_emissions := 200 }] none 2019 43 27 =
      some { baseline_year := 2019, target_value15 := 43, target_emissions15 := 114,
             target_value20 := 27, target_emissions20 := 146 } := by
  have hgen : ∀ (df : List EmissionsRow) (actor : Option String) (yb : Int) (tv15 tv20 : ℚ)
      (r : EmissionsRow),
      ipcc_baseline_rows df actor yb = [r] →
      ipcc_range df actor yb tv15 tv20 =
        some { baseline_year := yb, target_value15 := tv15,
               target_emissions15 := r.total_emissions * (1 - tv15 / 100),
               target_value20 := tv20,
               target_emissions20 := r.total_emissions * (1 - tv20 / 100) } := by
    intro df actor yb tv15 tv20 r h
    simp [ipcc_range, h, seriesItem]
  refine ⟨hgen, ?_⟩
  rw [hgen [{ actor_id := "XX", year := 2019, total_emissions := 200 }] none 2019 43 27
    { actor_id := "XX", year := 2019, total_emissions := 200 } rfl]
  norm_num

/-- Witness for C5: the general statement instantiated at the spec's
one-row example. -/
theorem C5_ipcc_range_witness :
    ipcc_range [{ actor_id := "XX", year := 2019, total_emissions := 200 }] none 2019 43 27 =
      some { baseline_year := 2019, target_value15 := 43,
             target_emissions15 := (200 : ℚ) * (1 - 43 / 100),
             target_value20 := 27,
             target_emissions20 := (200 : ℚ) * (1 - 27 / 100) } :=
  C5_ipcc_range.1 [{ actor_id := "XX", year := 2019, total_emissions := 200 }] none 2019 43 27
    { actor_id := "XX", year := 2019, total_emissions := 200 } rfl

/-- C6: when the baseline filter matches zero rows or more than one row,
`ipcc_range` signals an error (`.item()` raises; modelled as `none`)
rather than silently picking a row. -/
theorem C6_ipcc_range_ambiguous (df : List EmissionsRow) (actor : Option String)
    (yb : Int) (tv15 tv20 : ℚ)
    (h : (ipcc_baseline_rows df actor yb).length ≠ 1) :
    ipcc_range df actor yb tv15 tv20 = none := by
  cases hl : ipcc_baseline_rows df actor yb with
  | nil => simp [ipcc_range, hl, seriesItem]
  | cons a rest =>
    cases rest with
    | nil =>
      exfalso
      apply h
      rw [hl]
      rfl
    | cons b rest2 => simp [ipcc_range, hl, seriesItem]

/-- Witness for C6: the empty table matches zero rows, so `ipcc_range`
signals an error. -/
theorem C6_ipcc_range_ambiguous_witness :
    ipcc_range [] none 2019 43 27 = none :=
  C6_ipcc_range_ambiguous [] none 2019 43 27 (by simp [ipcc_baseline_rows])

/-- C7: every row of a table successfully returned by `get_target` is
the projection of an input record with target_type "Absolute emission
reduction" and target_year exactly the requested year, and the table has
no exact-duplicate rows. -/
theorem C7_get_target (targets : List TargetRecord) (year : Int)
    (out : List TargetOut)
    (h : get_target (ClientResult.ok targets) year = some out) :
    out.Nodup ∧ ∀ r ∈ out, r.target_year = year ∧
      ∃ tr ∈ targets, tr.target_type = "Absolute emission reduction" ∧
        tr.target_year = year ∧ TargetRecord.project tr = r := by
  have hout : out = get_target_pipeline targets year := by
    simpa [get_target] using h.symm
  subst hout
  simp only [get_target_pipeline]
  cases hmin : seriesMin (((targets.filter
      (fun r => r.target_type == "Absolute emission reduction")).filter
      (fun r => r.target_year == year)).map (fun r => r.target_year)) with
  | none => simp
  | some ct =>
    have hct : ct = year := by
      refine seriesMin_eq_of_all_eq ?_ hmin
      intro x hx
      rcases List.mem_map.mp hx with ⟨r, hr, hxr⟩
      have hy := (List.mem_filter.mp hr).2
      simp only [beq_iff_eq] at hy
      rw [← hxr]
      exact hy
    subst hct
    refine ⟨dropDuplicates_nodup _, ?_⟩
    intro r hr
    have hr2 := mem_of_mem_dropDuplicates hr
    rcases List.mem_map.mp hr2 with ⟨tr, htr, hproj⟩
    have htr2 := List.mem_filter.mp htr
    have htype := List.mem_filter.mp htr2.1
    have hyear : tr.target_year = ct := by
      have := htr2.2
      simpa [beq_iff_eq] using this
    have htt : tr.target_type = "Absolute emission reduction" := by
      have := htype.2
      simpa [beq_iff_eq] using this
    refine ⟨?_, tr, htype.1, htt, hyear, hproj⟩
    rw [← hproj]
    exact hyear

/-- Sample client targets table exercising C7: duplicate projected rows,
a record of another target_type and a record at another target_year. -/
def sampleTargets : List TargetRecord :=
  [{ actor_id := "CA", target_type := "Absolute emission reduction", baseline_year := 2005,
     target_year := 2030, target_value := 40, target_unit := "percent", datasource_id := "d1" },
   { actor_id := "CA", target_type := "Absolute emission reduction", baseline_year := 2005,
     target_year := 2030, target_value := 40, target_unit := "percent", datasource_id := "d2" },
   { actor_id := "CA", target_type := "Relative emission reduction", baseline_year := 2005,
     target_year := 2030, target_value := 10, target_unit := "percent", datasource_id := "d1" },
   { actor_id := "CA", target_type := "Absolute emission reduction", baseline_year := 2005,
     target_year := 2050, target_value := 80, target_unit := "percent", datasource_id := "d1" }]

/-- The table `get_target` computes from `sampleTargets` at year 2030. -/
def sampleOut : List TargetOut := get_target_pipeline sampleTargets 2030

/-- Witness for C7 at the sample table. -/
theorem C7_get_target_witness :
    sampleOut.Nodup ∧ ∀ r ∈ sampleOut, r.target_year = 2030 ∧
      ∃ tr ∈ sampleTargets, tr.target_type = "Absolute emission reduction" ∧
        tr.target_year = 2030 ∧ TargetRecord.project tr = r :=
  C7_get_target sampleTargets 2030 sampleOut rfl

/-- C8: `get_emissions` returns `None` exactly when the client raises a
`ValueError`; any other exception propagates; a successful table is
returned unchanged. -/
theorem C8_get_emissions (resp : EmissionsResponse) :
    (get_emissions resp = Except.ok none ↔
      ∃ msg, resp = EmissionsResponse.valueError msg) ∧
    (∀ msg, resp = EmissionsResponse.otherError msg →
      get_emissions resp = Except.error msg) ∧
    (∀ table, resp = EmissionsResponse.ok table →
      get_emissions resp = Except.ok (some table)) := by
  cases resp <;> simp [get_emissions]

/-- Witness for C8: a non-ValueError exception propagates uncaught. -/
theorem C8_get_emissions_witness :
    get_emissions (EmissionsResponse.otherError "boom") = Except.error "boom" :=
  (C8_get_emissions (EmissionsResponse.otherError "boom")).2.1 "boom" rfl

/-- C9: when either client lookup inside `actor_parts` raises an
`AttributeError` or `KeyError`, the function returns the not-found
result `None` and no exception escapes; on success it returns the
actor's own rows concatenated before the child rows. -/
theorem C9_actor_parts (partsResp searchResp : LookupResponse (List NamedActor))
    (aid : String) :
    (∀ dp sr, partsResp = LookupResponse.ok dp → searchResp = LookupResponse.ok sr →
      actor_parts partsResp searchResp aid =
        some (sr.filter (fun r => r.actor_id == aid) ++ dp)) ∧
    ((∃ msg, partsResp = LookupResponse.attributeError msg ∨
        partsResp = LookupResponse.keyError msg) →
      actor_parts partsResp searchResp aid = none) ∧
    ((∃ msg, searchResp = LookupResponse.attributeError msg ∨
        searchResp = LookupResponse.keyError msg) →
      actor_parts partsResp searchResp aid = none) := by
  refine ⟨?_, ?_, ?_⟩
  · intro dp sr hp hs
    subst hp
    subst hs
    rfl
  · rintro ⟨msg, h | h⟩ <;> subst h <;> rfl
  · rintro ⟨msg, h | h⟩ <;> subst h <;> cases partsResp <;> rfl

/-- Witness for C9: an attribute-style lookup failure on the search call
yields the not-found result. -/
theorem C9_actor_parts_witness :
    actor_parts (LookupResponse.ok []) (LookupResponse.attributeError "not found") "XX" =
      none :=
  (C9_actor_parts (LookupResponse.ok []) (LookupResponse.attributeError "not found")
    "XX").2.2 ⟨"not found", Or.inl rfl⟩

/-- C10: on a successful client response in which no absolute-emission-
reduction record has the requested target_year, `get_target` returns an
empty table (`some []`), distinguishable from the `None` of a failed
lookup. -/
theorem C10_get_target_empty (targets : List TargetRecord) (year : Int)
    (h : ∀ tr ∈ targets, tr.target_type = "Absolute emission reduction" →
      tr.target_year ≠ year) :
    get_target (ClientResult.ok targets) year = some [] := by
  have hfil : ((targets.filter
      (fun r => r.target_type == "Absolute emission reduction")).filter
      (fun r => r.target_year == year)) = [] := by
    rw [List.filter_eq_nil_iff]
    intro a ha
    have h2 := List.mem_filter.mp ha
    have htt : a.target_type = "Absolute emission reduction" := by
      have := h2.2
      simpa [beq_iff_eq] using this
    simp only [beq_iff_eq]
    exact h a h2.1 htt
  simp only [get_target, get_target_pipeline, hfil, List.map_nil, seriesMin]

/-- A lone absolute-emission-reduction record whose target_year is 2050,
used to witness C10 at requested year 2030. -/
def loneTarget2050 : TargetRecord :=
  { actor_id := "CA", target_type := "Absolute emission reduction", baseline_year := 2005,
    target_year := 2050, target_value := 80, target_unit := "percent", datasource_id := "d1" }

/-- Witness for C10: one absolute-emission-reduction record at 2050,
requested year 2030, gives the empty table. -/
theorem C10_get_target_empty_witness :
    get_target (ClientResult.ok [loneTarget2050]) 2030 = some [] :=
  C10_get_target_empty [loneTarget2050] 2030 (by decide)

end AmbitionGaps
